import Mathlib

/-!
Shallow embedding of the WireViz harness core (`wireviz/data.py`,
`wireviz/graphviz_html.py`, `wireviz/helper.py`) used to check the
specification's claims about entity construction, quantity multipliers,
the nested HTML table synthesizer, and the cable `connect` operation.

Python values are modelled as follows: `int` as `Int`, `float` as `ℚ`,
optional fields as `Option`, `Union[int, str]` as `Int ⊕ String`,
exceptions as `Except String`.  Python truthiness tests (`if x:`) are
modelled explicitly (`none`/`0`/`""`/`[]` are falsy).
-/

namespace WireViz

/-- `Pin = Union[int, PlainText]` from `data.py`. -/
abbrev Pin := Int ⊕ String

instance : DecidableEq Pin := inferInstanceAs (DecidableEq (Int ⊕ String))

/-- Render a pin for error messages (Python string interpolation). -/
def pinStr : Pin → String
  | Sum.inl n => toString n
  | Sum.inr s => s

/-- `Wire = Union[int, PlainText]` from `data.py`. -/
abbrev Wire := Int ⊕ String

/-- `Side = Enum("Side", "LEFT RIGHT")`. -/
inductive Side where
  | LEFT
  | RIGHT
deriving DecidableEq, Repr

/-- Python truthiness of an optional integer field (`None` and `0` are falsy). -/
def truthyInt : Option Int → Bool
  | none => false
  | some n => n != 0

/-- Python truthiness of an optional string field (`None` and `""` are falsy). -/
def truthyStr : Option String → Bool
  | none => false
  | some s => s != ""

/-- Python `str.replace` on character lists: replace all non-overlapping
occurrences of `pat` left to right (nonempty `pat` only).  The fuel
argument, initially the list length, makes the recursion structural; it
never runs out because each step consumes at least one character. -/
def replaceFuel (pat rep : List Char) : Nat → List Char → List Char
  | _, [] => []
  | 0, s => s
  | fuel + 1, c :: cs =>
    if pat ≠ [] ∧ pat.isPrefixOf (c :: cs) = true then
      rep ++ replaceFuel pat rep fuel ((c :: cs).drop pat.length)
    else c :: replaceFuel pat rep fuel cs

/-- Python `str.replace` on strings. -/
def pyReplace (s pat rep : String) : String :=
  String.mk (replaceFuel pat.data rep.data s.data.length s.data)

/-- Python `str.split(sep)` with a one-character separator, on character
lists: split at every occurrence, keeping empty pieces. -/
def splitOnCharList (sep : Char) : List Char → List (List Char)
  | [] => [[]]
  | c :: cs =>
    match splitOnCharList sep cs with
    | [] => if c = sep then [[], []] else [[c]]
    | g :: gs => if c = sep then [] :: g :: gs else (c :: g) :: gs

/-- Python `str.split(sep)` on strings. -/
def pySplit (s : String) (sep : Char) : List String :=
  (splitOnCharList sep s.data).map String.mk

/-- Python `str.upper()` (ASCII). -/
def pyUpper (s : String) : String :=
  String.mk (s.data.map Char.toUpper)

/-- Python `dict` assignment `d[k] = v`: replace the value in place if the
key exists (keeping insertion order), otherwise append the new pair. -/
def dictSet (d : List (Pin × Bool)) (p : Pin) (b : Bool) : List (Pin × Bool) :=
  if d.any (fun e => e.1 = p) then
    d.map (fun e => if e.1 = p then (e.1, b) else e)
  else
    d ++ [(p, b)]

/-- Constructor arguments of the `Connector` dataclass (the fields the
claims depend on; remaining fields are presentation-only passthroughs). -/
structure ConnectorConfig where
  name : String
  style : Option String := none
  pincount : Option Int := none
  pins : List Pin := []
  pinlabels : List Pin := []
  pincolors : List String := []
  show_name : Option Bool := none
  show_pincount : Option Bool := none
  hide_disconnected_pins : Bool := false
  loops : List (List Pin) := []

/-- A fully constructed `Connector` after `__post_init__`. -/
structure ConnectorState where
  name : String
  style : Option String
  pincount : Int
  pins : List Pin
  pinlabels : List Pin
  pincolors : List String
  show_name : Bool
  show_pincount : Bool
  hide_disconnected_pins : Bool
  loops : List (List Pin)
  ports_left : Bool
  ports_right : Bool
  visible_pins : List (Pin × Bool)
deriving DecidableEq, Repr

/-- `Connector.activate_pin`: mark the pin visible, and raise the left or
right port flag when a side is given. -/
def Connector.activate_pin (st : ConnectorState) (pin : Pin) (side : Option Side) :
    ConnectorState :=
  let st := { st with visible_pins := dictSet st.visible_pins pin true }
  if side = some Side.LEFT then { st with ports_left := true }
  else if side = some Side.RIGHT then { st with ports_right := true }
  else st

/-- The inner `for pin in loop` body: check each loop pin is a known pin,
then activate it with `side = None`. -/
def Connector.processLoopPins (pins : List Pin) :
    List Pin → ConnectorState → Except String ConnectorState
  | [], st => .ok st
  | p :: ps, st =>
    if pins.contains p then
      Connector.processLoopPins pins ps (Connector.activate_pin st p none)
    else
      .error ("Unknown loop pin \"" ++ pinStr p ++ "\" for connector \"" ++ st.name ++ "\"!")

/-- The `for loop in self.loops` loop of `Connector.__post_init__`. -/
def Connector.processLoops (pins : List Pin) :
    List (List Pin) → ConnectorState → Except String ConnectorState
  | [], st => .ok st
  | l :: ls, st =>
    if l.length ≠ 2 then .error "Loops must be between exactly two pins!"
    else
      match Connector.processLoopPins pins l st with
      | .error e => .error e
      | .ok st' => Connector.processLoops pins ls st'

/-- Default pin list `list(range(1, pincount + 1))` (empty when
`pincount ≤ 0`, as in Python). -/
def defaultPins (pc : Int) : List Pin :=
  (List.range pc.toNat).map (fun i => Sum.inl ((i : Int) + 1))

/-- The pincount section of `Connector.__post_init__`: the
`style == "simple"` check followed by the `if not self.pincount`
derivation from the three parallel lists. -/
def Connector.resolvePincount (cfg : ConnectorConfig) : Except String Int :=
  if cfg.style = some "simple" then
    if truthyInt cfg.pincount ∧ cfg.pincount.getD 0 > 1 then
      .error "Connectors with style set to simple may only have one pin"
    else .ok 1
  else if truthyInt cfg.pincount then .ok (cfg.pincount.getD 0)
  else
    let m : Int := (max cfg.pins.length (max cfg.pinlabels.length cfg.pincolors.length) : Nat)
    if m = 0 then
      .error "You need to specify at least one, pincount, pins, pinlabels, or pincolors"
    else .ok m

/-- The tail of `Connector.__post_init__` after the default pin list is
in place: uniqueness check, display defaults, loop processing. -/
def Connector.checkPins (cfg : ConnectorConfig) (pc : Int) (pins : List Pin) :
    Except String ConnectorState :=
    if pins.length ≠ pins.dedup.length then .error "Pins are not unique"
    else
      let show_name := cfg.show_name.getD (cfg.style ≠ some "simple" ∧ cfg.name.take 2 ≠ "__")
      let show_pincount := cfg.show_pincount.getD (cfg.style ≠ some "simple")
      let st0 : ConnectorState :=
        { name := cfg.name
          style := cfg.style
          pincount := pc
          pins := pins
          pinlabels := cfg.pinlabels
          pincolors := cfg.pincolors
          show_name := show_name
          show_pincount := show_pincount
          hide_disconnected_pins := cfg.hide_disconnected_pins
          loops := cfg.loops
          ports_left := false
          ports_right := false
          visible_pins := [] }
      Connector.processLoops pins cfg.loops st0

/-- The remainder of `Connector.__post_init__` once the pincount is
known: create the default sequential pin list if none was given, then
run the remaining checks. -/
def Connector.finishInit (cfg : ConnectorConfig) (pc : Int) : Except String ConnectorState :=
  -- create default list for pins (sequential) if not specified
  Connector.checkPins cfg pc (if cfg.pins = [] then defaultPins pc else cfg.pins)

/-- `Connector.__post_init__`. -/
def Connector.post_init (cfg : ConnectorConfig) : Except String ConnectorState :=
  match Connector.resolvePincount cfg with
  | .error e => .error e
  | .ok pc => Connector.finishInit cfg pc

/-- `sum(self.visible_pins.values())`: Python sums booleans as 0/1. -/
def visibleCount (d : List (Pin × Bool)) : Int :=
  (d.map (fun e => if e.2 then (1 : Int) else 0)).sum

/-- `Connector.get_qty_multiplier`. -/
def Connector.get_qty_multiplier (st : ConnectorState) (qty_multiplier : Option String) :
    Except String Int :=
  if ¬ truthyStr qty_multiplier then .ok 1
  else if qty_multiplier = some "pincount" then .ok st.pincount
  else if qty_multiplier = some "populated" then .ok (visibleCount st.visible_pins)
  else if qty_multiplier = some "unpopulated" then
    .ok (max 0 (st.pincount - visibleCount st.visible_pins))
  else
    .error ("invalid qty multiplier parameter for connector " ++ (qty_multiplier.getD ""))

/-! ### Cable -/

/-- Value of digit characters read left to right. -/
def digitsVal (cs : List Char) : Nat :=
  cs.foldl (fun a c => a * 10 + (c.toNat - 48)) 0

/-- Python `float(s)` on plain decimal notation (optional sign, digits,
optional fractional part), `none` when the string is rejected. -/
def pyFloat (s : String) : Option ℚ :=
  let t := s.trim
  let (sign, u) : ℚ × String :=
    if t.startsWith "-" then (-1, t.drop 1)
    else if t.startsWith "+" then (1, t.drop 1) else (1, t)
  match pySplit u '.' with
  | [a] =>
    let ca := a.toList
    if ca ≠ [] ∧ ca.all Char.isDigit then some (sign * digitsVal ca) else none
  | [a, b] =>
    let ca := a.toList
    let cb := b.toList
    if (ca ≠ [] ∨ cb ≠ []) ∧ ca.all Char.isDigit ∧ cb.all Char.isDigit then
      some (sign * ((digitsVal ca : ℚ) + (digitsVal cb : ℚ) / ((10 : ℚ) ^ cb.length)))
    else none
  | _ => none

/-- Python list slice `l[:n]`, including the negative-index case. -/
def pySliceTo (l : List String) (n : Int) : List String :=
  if 0 ≤ n then l.take n.toNat else l.take (l.length - (-n).toNat)

/-- A connection record appended by `Cable.connect`
(`from_name`, `from_pin`, `via_port`, `to_name`, `to_pin`). -/
structure Connection where
  from_name : Option String
  from_pin : Option Int
  via_port : Wire
  to_name : Option String
  to_pin : Option Int
deriving DecidableEq, Repr

/-- Constructor arguments of the `Cable` dataclass (fields the claims
depend on).  `gauge` and `length` may be numbers or strings as in the
source; identification fields may be single values or lists. -/
structure CableConfig where
  name : String
  manufacturer : Option (String ⊕ List String) := none
  mpn : Option (String ⊕ List String) := none
  supplier : Option (String ⊕ List String) := none
  spn : Option (String ⊕ List String) := none
  pn : Option (String ⊕ List String) := none
  category : Option String := none
  gauge : Option (ℚ ⊕ String) := none
  gauge_unit : Option String := none
  length : ℚ ⊕ String := Sum.inl 0
  length_unit : Option String := none
  wirecount : Option Int := none
  shield : Bool ⊕ String := Sum.inl false
  colors : List String := []
  wirelabels : List Wire := []
  color_code : Option String := none
  show_name : Option Bool := none
  show_wirecount : Bool := true
  show_wirenumbers : Option Bool := none

/-- A fully constructed `Cable` after `__post_init__`. -/
structure CableState where
  name : String
  category : Option String
  gauge : Option (ℚ ⊕ String)
  gauge_unit : Option String
  length : ℚ
  length_unit : Option String
  wirecount : Int
  shield : Bool ⊕ String
  colors : List String
  wirelabels : List Wire
  show_name : Bool
  show_wirecount : Bool
  show_wirenumbers : Bool
  connections : List Connection
deriving DecidableEq, Repr

/-- The gauge-parsing section of `Cable.__post_init__`: returns the final
`(gauge, gauge_unit)` pair or the construction error. -/
def parseGauge (name : String) (gauge : Option (ℚ ⊕ String)) (gauge_unit : Option String) :
    Except String (Option (ℚ ⊕ String) × Option String) :=
  match gauge with
  | some (Sum.inr s) =>
    -- gauge and unit specified as a string; `g, u = self.gauge.split(" ")`
    match pySplit s ' ' with
    | [g, u] =>
      let gu := if pyUpper u = "AWG" then pyUpper u else pyReplace u "mm2" "mm²"
      .ok (some (Sum.inr g), some gu)
    | _ =>
      .error ("Cable " ++ name ++ " gauge=" ++ s ++
        " - Gauge must be a number, or number and unit separated by a space")
  | some (Sum.inl q) =>
    -- gauge specified as a number, assume mm² when no unit is given
    if gauge_unit = none then .ok (some (Sum.inl q), some "mm²")
    else .ok (some (Sum.inl q), gauge_unit)
  | none => .ok (none, gauge_unit)

/-- The length-parsing section of `Cable.__post_init__`. -/
def parseLength (name : String) (length : ℚ ⊕ String) (length_unit : Option String) :
    Except String (ℚ × Option String) :=
  match length with
  | Sum.inr s =>
    match pySplit s ' ' with
    | [l, u] =>
      match pyFloat l with
      | some q => .ok (q, some u)
      | none =>
        .error ("Cable " ++ name ++ " length=" ++ s ++
          " - Length must be a number, or number and unit separated by a space")
    | _ =>
      .error ("Cable " ++ name ++ " length=" ++ s ++
        " - Length must be a number, or number and unit separated by a space")
  | Sum.inl q =>
    if length_unit = none then .ok (q, some "m") else .ok (q, length_unit)

/-- The wire-color resolution section of `Cable.__post_init__`,
parameterised by the `COLOR_CODES` table (the `wireviz.colors` module is
not part of the analysed sources).  Returns the final
`(wirecount, colors)` or the construction error. -/
def resolveColors (colorCodes : String → Option (List String)) (wirecount : Option Int)
    (colors : List String) (color_code : Option String) : Except String (Int × List String) :=
  if truthyInt wirecount then
    let n := wirecount.getD 0
    let baseE : Except String (List String) :=
      if colors ≠ [] then .ok colors
      else if truthyStr color_code then
        match colorCodes (color_code.getD "") with
        | none => .error "Unknown color code"
        | some pal => .ok pal
      else .ok (List.replicate n.toNat "")
    match baseE with
    | .error e => .error e
    | .ok base =>
      if (base.length : Int) < n then
        if base.length = 0 then .error "integer division or modulo by zero"
        else
          let m : Nat := n.toNat / base.length + 1
          .ok (n, pySliceTo (List.flatten (List.replicate m base)) n)
      else .ok (n, pySliceTo base n)
  else if colors = [] then
    .error "Unknown number of wires. Must specify wirecount or colors (implicit length)"
  else .ok (colors.length, colors)

/-- Truthiness of `self.shield` (`False` and `""` are falsy). -/
def truthyShield : Bool ⊕ String → Bool
  | Sum.inl b => b
  | Sum.inr s => s != ""

/-- The `"s"` shield-label check of `Cable.__post_init__`. -/
def checkShieldLabel (wirelabels : List Wire) (shield : Bool ⊕ String) : Except String Unit :=
  if wirelabels ≠ [] ∧ truthyShield shield ∧ wirelabels.contains (Sum.inr "s") then
    .error "\"s\" may not be used as a wire label for a shielded cable."
  else .ok ()

/-- The part-number list check of `Cable.__post_init__` for one
identification field. -/
def checkIdField (category : Option String) (wirecount : Int)
    (idfield : Option (String ⊕ List String)) : Except String Unit :=
  match idfield with
  | some (Sum.inr l) =>
    if category = some "bundle" then
      if (l.length : Int) ≠ wirecount then .error "lists of part data must match wirecount"
      else .ok ()
    else .error "lists of part data are only supported for bundles"
  | _ => .ok ()

/-- The `for idfield in [...]` loop of `Cable.__post_init__`. -/
def checkIdFields (category : Option String) (wirecount : Int)
    (idfields : List (Option (String ⊕ List String))) : Except String Unit :=
  match idfields with
  | [] => .ok ()
  | f :: fs =>
    match checkIdField category wirecount f with
    | .error e => .error e
    | .ok _ => checkIdFields category wirecount fs

/-- `Cable.__post_init__`, parameterised by the `COLOR_CODES` table. -/
def Cable.post_init (colorCodes : String → Option (List String)) (cfg : CableConfig) :
    Except String CableState :=
  match parseGauge cfg.name cfg.gauge cfg.gauge_unit with
  | .error e => .error e
  | .ok (gauge, gauge_unit) =>
    match parseLength cfg.name cfg.length cfg.length_unit with
    | .error e => .error e
    | .ok (length, length_unit) =>
      match resolveColors colorCodes cfg.wirecount cfg.colors cfg.color_code with
      | .error e => .error e
      | .ok (wirecount, colors) =>
        match checkShieldLabel cfg.wirelabels cfg.shield with
        | .error e => .error e
        | .ok _ =>
          match checkIdFields cfg.category wirecount
              [cfg.manufacturer, cfg.mpn, cfg.supplier, cfg.spn, cfg.pn] with
          | .error e => .error e
          | .ok _ =>
            .ok { name := cfg.name
                  category := cfg.category
                  gauge := gauge
                  gauge_unit := gauge_unit
                  length := length
                  length_unit := length_unit
                  wirecount := wirecount
                  shield := cfg.shield
                  colors := colors
                  wirelabels := cfg.wirelabels
                  show_name := cfg.show_name.getD (cfg.name.take 2 ≠ "__")
                  show_wirecount := cfg.show_wirecount
                  show_wirenumbers := cfg.show_wirenumbers.getD (cfg.category ≠ some "bundle")
                  connections := [] }

/-- `NoneOrMorePinIndices`: `None`, a single pin index, or a tuple. -/
inductive PinArg where
  | nul
  | one (p : Int)
  | many (ps : List Int)

/-- `OneOrMoreWires`: a single wire or a tuple. -/
inductive WireArg where
  | one (w : Wire)
  | many (ws : List Wire)

/-- `int2tuple` from `helper.py` applied to a pin argument: wrap
non-tuples (including `None`) in a one-element tuple. -/
def int2tuplePins : PinArg → List (Option Int)
  | PinArg.nul => [none]
  | PinArg.one p => [some p]
  | PinArg.many ps => ps.map some

/-- `int2tuple` from `helper.py` applied to a wire argument. -/
def int2tupleWires : WireArg → List Wire
  | WireArg.one w => [w]
  | WireArg.many ws => ws

/-- The `for i, _ in enumerate(from_pin)` loop of `Cable.connect`:
appends one `Connection` per index; indexing a too-short `via_wire`
raises `IndexError` after the earlier appends already happened. -/
def connectLoop (from_name to_name : Option String) :
    List (Option Int × Option Int) → List Wire → List Connection →
    List Connection × Option String
  | [], _, conns => (conns, none)
  | _ :: _, [], conns => (conns, some "tuple index out of range")
  | (fp, tp) :: rest, w :: ws, conns =>
    connectLoop from_name to_name rest ws
      (conns ++ [{ from_name := from_name, from_pin := fp, via_port := w,
                   to_name := to_name, to_pin := tp }])

/-- `Cable.connect`: returns the cable's connection list after the call
together with the raised error, if any. -/
def Cable.connect (conns : List Connection) (from_name : Option String) (from_pin : PinArg)
    (via_wire : WireArg) (to_name : Option String) (to_pin : PinArg) :
    List Connection × Option String :=
  let f := int2tuplePins from_pin
  let v := int2tupleWires via_wire
  let t := int2tuplePins to_pin
  if f.length ≠ t.length then
    (conns, some "from_pin must have the same number of elements as to_pin")
  else connectLoop from_name to_name (f.zip t) v conns

/-- `Cable.get_qty_multiplier`. -/
def Cable.get_qty_multiplier (st : CableState) (qty_multiplier : Option String) :
    Except String ℚ :=
  if ¬ truthyStr qty_multiplier then .ok 1
  else if qty_multiplier = some "wirecount" then .ok (st.wirecount : ℚ)
  else if qty_multiplier = some "terminations" then .ok (st.connections.length : ℚ)
  else if qty_multiplier = some "length" then .ok st.length
  else if qty_multiplier = some "total_length" then .ok (st.length * (st.wirecount : ℚ))
  else
    .error ("invalid qty multiplier parameter for cable " ++ (qty_multiplier.getD ""))

/-! ### Nested HTML table synthesizer (`graphviz_html.py`) -/

/-- One element of the `rows` argument of `nested_html_table`: `None`, a
scalar markup fragment, or a list of optional fragments. -/
inductive Row where
  | nul
  | scalar (s : String)
  | sub (cells : List (Option String))

/-- Python `any(row)` over a list of optional strings: `None` and `""`
are falsy. -/
def anyTruthyCell (cells : List (Option String)) : Bool :=
  cells.any (fun c => match c with | none => false | some s => s != "")

/-- The inner `for cell in row` loop: one `<td>` per non-`None` cell,
with the `><tdX` attribute-injection rewrite applied. -/
def subCellsHtml (cells : List (Option String)) : List String :=
  cells.filterMap (fun c =>
    c.map (fun s => pyReplace ("   <td balign=\"left\">" ++ s ++ "</td>") "><tdX" ""))

/-- The body of the `for row in rows` loop of `nested_html_table`,
threading the `html` list and the `num_rows` counter. -/
def nestedStep (acc : List String × Nat) (row : Row) : List String × Nat :=
  match row with
  | Row.sub cells =>
    if cells.length > 0 ∧ anyTruthyCell cells then
      (acc.1 ++ [" <tr><td>",
          "  <table border=\"0\" cellspacing=\"0\" cellpadding=\"3\" cellborder=\"1\"><tr>"]
        ++ subCellsHtml cells
        ++ ["  </tr></table>", " </td></tr>"], acc.2 + 1)
    else acc
  | Row.scalar s => (acc.1 ++ [" <tr><td>", "  " ++ s, " </td></tr>"], acc.2 + 1)
  | Row.nul => acc

/-- The parent table's opening line. -/
def tableOpenLine (table_attrs : String) : String :=
  "<table border=\"0\" cellspacing=\"0\" cellpadding=\"0\"" ++ table_attrs ++ ">"

/-- `nested_html_table` from `graphviz_html.py`. -/
def nested_html_table (rows : List Row) (table_attrs : String) : List String :=
  let init : List String × Nat := ([tableOpenLine table_attrs], 0)
  let res := rows.foldl nestedStep init
  let html := if res.2 = 0 then res.1 ++ ["<tr><td></td></tr>"] else res.1
  html ++ ["</table>"]

/-- Whether a row survives the synthesizer's omission rules (the
`num_rows` increments of the source loop). -/
def rowEmits : Row → Bool
  | Row.nul => false
  | Row.scalar _ => true
  | Row.sub cells => decide (cells.length > 0 ∧ anyTruthyCell cells)

/-- Spec-side rendering of a single row, written after the claim's words:
a `None` row is omitted, a scalar row becomes a one-cell row, a list row
with a truthy fragment becomes an inner single-row table with one cell
per non-`None` fragment, and other list rows are omitted. -/
def specRowHtml : Row → List String
  | Row.nul => []
  | Row.scalar s => [" <tr><td>", "  " ++ s, " </td></tr>"]
  | Row.sub cells =>
    if cells.length > 0 ∧ anyTruthyCell cells then
      [" <tr><td>",
        "  <table border=\"0\" cellspacing=\"0\" cellpadding=\"3\" cellborder=\"1\"><tr>"]
        ++ subCellsHtml cells ++ ["  </tr></table>", " </td></tr>"]
    else []

/-- Marker for lines that open a table row in the synthesizer's output
(rendered rows and the empty placeholder row). -/
def isRowLine (h : String) : Bool :=
  h == " <tr><td>" || h == "<tr><td></td></tr>"

/-- Number of table rows appearing in a chunk of synthesizer output. -/
def outputRowCount (html : List String) : Nat :=
  html.countP isRowLine

/-! ### Image -/

/-- Constructor arguments of the `Image` dataclass. -/
structure ImageConfig where
  src : String
  scale : Option String := none
  width : Option Int := none
  height : Option Int := none
  fixedsize : Option Bool := none
  caption : Option String := none

/-- A fully constructed `Image` after `__post_init__`.  The derived
`fixedsize` is `none` when the Python expression leaves a falsy
non-boolean value (`None` or `0`). -/
structure ImageState where
  src : String
  scale : String
  width : Option ℚ
  height : Option ℚ
  fixedsize : Option Bool
  caption : Option String

/-- `Image.__post_init__`, parameterised by the aspect ratio read from
the image file (the file read always succeeds in the model; on failure
the source substitutes ratio 1.0 upstream). -/
def Image.post_init (aspectRatio : ℚ) (cfg : ImageConfig) : ImageState :=
  let fixedsize : Option Bool :=
    match cfg.fixedsize with
    | some b => some b
    | none =>
      -- `(self.width or self.height) and self.scale is None`
      if truthyInt cfg.width ∨ truthyInt cfg.height then some (cfg.scale = none) else none
  let scale : String :=
    match cfg.scale with
    | some s => s
    | none =>
      if ¬ truthyInt cfg.width ∧ ¬ truthyInt cfg.height then "false"
      else if truthyInt cfg.width ∧ truthyInt cfg.height then "both"
      else "true"
  let width : Option ℚ := cfg.width.map (fun n => (n : ℚ))
  let height : Option ℚ := cfg.height.map (fun n => (n : ℚ))
  let (width, height) :=
    if fixedsize = some true then
      if truthyInt cfg.height then
        if ¬ truthyInt cfg.width then
          (some ((cfg.height.getD 0 : ℚ) * aspectRatio), height)
        else (width, height)
      else if truthyInt cfg.width then
        (width, some ((cfg.width.getD 0 : ℚ) / aspectRatio))
      else (width, height)
    else (width, height)
  { src := cfg.src
    scale := scale
    width := width
    height := height
    fixedsize := fixedsize
    caption := cfg.caption }

/-- The `Connection` built at one index of the `Cable.connect` loop. -/
def mkConn (from_name to_name : Option String) (pw : (Option Int × Option Int) × Wire) :
    Connection :=
  { from_name := from_name, from_pin := pw.1.1, via_port := pw.2,
    to_name := to_name, to_pin := pw.1.2 }

/-- The palette the claim says wire colors are drawn from: the explicit
colors list if given (nonempty), else the named color-code table, else
empty-string dummies (one per wire). -/
def palettePick (cc : String → Option (List String)) (colors : List String)
    (color_code : Option String) (n : Int) : List String :=
  if colors ≠ [] then colors
  else if truthyStr color_code then (cc (color_code.getD "")).getD []
  else List.replicate n.toNat ""

/-! ## Lemmas and claim theorems -/

/-! ### Nested table synthesizer (C4, C5) -/

lemma nestedStep_eq (acc : List String × Nat) (r : Row) :
    nestedStep acc r = (acc.1 ++ specRowHtml r, acc.2 + (if rowEmits r then 1 else 0)) := by
  cases r with
  | nul => simp [nestedStep, specRowHtml, rowEmits]
  | scalar s => simp [nestedStep, specRowHtml, rowEmits]
  | sub cells =>
    by_cases h : cells.length > 0 ∧ anyTruthyCell cells
    · simp [nestedStep, specRowHtml, rowEmits, h]
    · simp [nestedStep, specRowHtml, rowEmits, h]

lemma foldl_nestedStep (rows : List Row) (acc : List String × Nat) :
    rows.foldl nestedStep acc
      = (acc.1 ++ (rows.map specRowHtml).flatten, acc.2 + rows.countP rowEmits) := by
  induction rows generalizing acc with
  | nil => simp
  | cons r rs ih =>
    rw [List.foldl_cons, nestedStep_eq, ih]
    simp [List.countP_cons]
    omega

lemma nested_html_table_characterization (rows : List Row) (attrs : String) :
    nested_html_table rows attrs
      = [tableOpenLine attrs]
        ++ (rows.map specRowHtml).flatten
        ++ (if rows.countP rowEmits = 0 then ["<tr><td></td></tr>"] else [])
        ++ ["</table>"] := by
  simp only [nested_html_table, foldl_nestedStep]
  by_cases h : rows.countP rowEmits = 0 <;> simp [h]

/-- C4 (amended): each `None` row, empty list row, or list row with no
truthy (non-`None`, non-empty) fragment is omitted; a scalar row becomes
a one-cell row; a list row with a truthy fragment becomes an inner
single-row table with one cell per non-`None` fragment; output order is
input order.  `specRowHtml` states this row-by-row behavior in the
claim's words, and the theorem shows the synthesizer's output is exactly
the concatenation in input order (plus placeholder handling). -/
theorem C4_row_rendering_amended (rows : List Row) (attrs : String) :
    nested_html_table rows attrs
      = [tableOpenLine attrs]
        ++ (rows.map specRowHtml).flatten
        ++ (if rows.countP rowEmits = 0 then ["<tr><td></td></tr>"] else [])
        ++ ["</table>"] :=
  nested_html_table_characterization rows attrs

/-- C4 counterexample: the list row `[""]` contains a non-`None` fragment,
so the claim as stated renders it as an inner single-row table with one
cell; the code omits the row entirely (Python `any` treats `""` as falsy)
and produces the same all-omitted placeholder output as for a `None` row. -/
theorem C4_counterexample :
    nested_html_table [Row.sub [some ""]] ""
        = [tableOpenLine "", "<tr><td></td></tr>", "</table>"]
      ∧ nested_html_table [Row.sub [some ""]] "" = nested_html_table [Row.nul] "" := by
  exact ⟨rfl, rfl⟩

lemma isRowLine_false_of_data (x : String) (t : List Char)
    (hx : x.data = ' ' :: ' ' :: t ∨ x.data = '<' :: 't' :: 'a' :: t) :
    isRowLine x = false := by
  unfold isRowLine
  rw [Bool.or_eq_false_iff]
  constructor <;>
  · rw [beq_eq_false_iff_ne]
    intro h
    rw [h] at hx
    rcases hx with hx | hx <;> simp at hx

lemma replaceFuel_tdX_space (rep : List Char) (f : Nat) (l : List Char) :
    replaceFuel "><tdX".data rep (f + 1) (' ' :: l)
      = ' ' :: replaceFuel "><tdX".data rep f l := by
  simp only [replaceFuel]
  rw [if_neg]
  intro h
  simpa [List.isPrefixOf] using h.2

lemma pyReplace_cell_data (s : String) :
    ∃ t, (pyReplace ("   <td balign=\"left\">" ++ s ++ "</td>") "><tdX" "").data
      = ' ' :: ' ' :: ' ' :: t := by
  unfold pyReplace
  have h1 : ("   <td balign=\"left\">" ++ s ++ "</td>").data
      = ' ' :: ' ' :: ' ' :: ("<td balign=\"left\">".data ++ s.data ++ "</td>".data) := by
    have hd : "   <td balign=\"left\">".data = ' ' :: ' ' :: ' ' :: "<td balign=\"left\">".data := rfl
    simp [String.data_append, hd]
  rw [h1]
  generalize ("<td balign=\"left\">".data ++ s.data ++ "</td>".data) = rest
  rw [List.length_cons, List.length_cons, List.length_cons]
  rw [replaceFuel_tdX_space, replaceFuel_tdX_space, replaceFuel_tdX_space]
  exact ⟨_, rfl⟩

lemma subCellsHtml_no_marker (cells : List (Option String)) :
    ∀ x ∈ subCellsHtml cells, isRowLine x = false := by
  intro x hx
  unfold subCellsHtml at hx
  rw [List.mem_filterMap] at hx
  obtain ⟨c, _, hc⟩ := hx
  cases c with
  | none => simp at hc
  | some s =>
    have hc2 : pyReplace ("   <td balign=\"left\">" ++ s ++ "</td>") "><tdX" "" = x := by
      simpa using hc
    obtain ⟨t, ht⟩ := pyReplace_cell_data s
    rw [hc2] at ht
    exact isRowLine_false_of_data x (' ' :: t) (Or.inl ht)

lemma outputRowCount_specRowHtml (r : Row) :
    outputRowCount (specRowHtml r) = if rowEmits r then 1 else 0 := by
  cases r with
  | nul => simp [specRowHtml, rowEmits, outputRowCount]
  | scalar s =>
    have hcontent : isRowLine ("  " ++ s) = false := by
      refine isRowLine_false_of_data _ s.data (Or.inl ?_)
      have hd : "  ".data = [' ', ' '] := rfl
      simp [String.data_append, hd]
    have hopen : isRowLine " <tr><td>" = true := by decide
    have hclose : isRowLine " </td></tr>" = false := by decide
    simp [specRowHtml, rowEmits, outputRowCount, List.countP_cons, hcontent, hopen, hclose]
  | sub cells =>
    have hopen : isRowLine " <tr><td>" = true := by decide
    have hinner : isRowLine
        "  <table border=\"0\" cellspacing=\"0\" cellpadding=\"3\" cellborder=\"1\"><tr>"
          = false := by decide
    have hend1 : isRowLine "  </tr></table>" = false := by decide
    have hend2 : isRowLine " </td></tr>" = false := by decide
    by_cases h : cells.length > 0 ∧ anyTruthyCell cells
    · have hz : (subCellsHtml cells).countP isRowLine = 0 :=
        List.countP_eq_zero.mpr (by
          intro x hx
          simp [subCellsHtml_no_marker cells x hx])
      simp [specRowHtml, rowEmits, outputRowCount, h, List.countP_cons, List.countP_append, hz,
        hopen, hinner, hend1, hend2]
    · simp [specRowHtml, rowEmits, outputRowCount, h]

lemma outputRowCount_flatten (rows : List Row) :
    outputRowCount ((rows.map specRowHtml).flatten) = rows.countP rowEmits := by
  induction rows with
  | nil => simp [outputRowCount]
  | cons r rs ih =>
    simp only [List.map_cons, List.flatten_cons, outputRowCount, List.countP_append,
      List.countP_cons]
    have h1 := outputRowCount_specRowHtml r
    unfold outputRowCount at h1 ih
    rw [h1, ih]
    exact Nat.add_comm _ _

lemma isRowLine_tableOpen (attrs : String) : isRowLine (tableOpenLine attrs) = false := by
  refine isRowLine_false_of_data _
    ("ble border=\"0\" cellspacing=\"0\" cellpadding=\"0\"".data ++ attrs.data ++ ">".data)
    (Or.inr ?_)
  unfold tableOpenLine
  have hd : "<table border=\"0\" cellspacing=\"0\" cellpadding=\"0\"".data
      = '<' :: 't' :: 'a' :: "ble border=\"0\" cellspacing=\"0\" cellpadding=\"0\"".data := rfl
  simp [String.data_append, hd]

lemma outputRowCount_nested (rows : List Row) (attrs : String) :
    outputRowCount (nested_html_table rows attrs)
      = rows.countP rowEmits + (if rows.countP rowEmits = 0 then 1 else 0) := by
  rw [nested_html_table_characterization]
  have h1 := outputRowCount_flatten rows
  have hopen := isRowLine_tableOpen attrs
  have hph : isRowLine "<tr><td></td></tr>" = true := by decide
  have hcl : isRowLine "</table>" = false := by decide
  unfold outputRowCount at h1 ⊢
  by_cases h : rows.countP rowEmits = 0 <;>
    simp [h, List.countP_append, List.countP_cons, h1, hopen, hph, hcl]

lemma specRowHtml_eq_nil (r : Row) (h : rowEmits r = false) : specRowHtml r = [] := by
  cases r with
  | nul => rfl
  | scalar s => simp [rowEmits] at h
  | sub cells =>
    simp only [rowEmits, decide_eq_false_iff_not] at h
    simp [specRowHtml, h]

/-- C5: when every row is omitted (`None`, empty list, or only falsy
fragments), the synthesizer emits exactly the placeholder table with one
empty cell row; and for any input at all the output contains at least one
table row. -/
theorem C5_placeholder_row (rows : List Row) (attrs : String)
    (h : ∀ r ∈ rows, rowEmits r = false) :
    nested_html_table rows attrs = [tableOpenLine attrs, "<tr><td></td></tr>", "</table>"]
    ∧ outputRowCount (nested_html_table rows attrs) = 1
    ∧ ∀ (rows2 : List Row) (attrs2 : String),
        1 ≤ outputRowCount (nested_html_table rows2 attrs2) := by
  have hcnt : rows.countP rowEmits = 0 :=
    List.countP_eq_zero.mpr (fun r hr => by simp [h r hr])
  have hfl : (rows.map specRowHtml).flatten = [] := by
    rw [List.flatten_eq_nil_iff]
    intro l hl
    rw [List.mem_map] at hl
    obtain ⟨r, hr, hrl⟩ := hl
    rw [← hrl]
    exact specRowHtml_eq_nil r (h r hr)
  refine ⟨?_, ?_, ?_⟩
  · rw [nested_html_table_characterization, hcnt, hfl]
    simp
  · rw [outputRowCount_nested, hcnt]
    simp
  · intro rows2 attrs2
    rw [outputRowCount_nested]
    by_cases h2 : rows2.countP rowEmits = 0
    · simp [h2]
    · have h3 : 1 ≤ rows2.countP rowEmits := Nat.one_le_iff_ne_zero.mpr h2
      simp only [h2, if_false]
      omega

/-- Witness for C5 at a concrete all-omitted input. -/
theorem C5_placeholder_row_witness :
    nested_html_table [Row.nul, Row.sub [], Row.sub [none, some ""]] ""
        = [tableOpenLine "", "<tr><td></td></tr>", "</table>"]
      ∧ outputRowCount (nested_html_table [Row.nul, Row.sub [], Row.sub [none, some ""]] "") = 1 :=
  ⟨(C5_placeholder_row [Row.nul, Row.sub [], Row.sub [none, some ""]] "" (by decide)).1,
   (C5_placeholder_row [Row.nul, Row.sub [], Row.sub [none, some ""]] "" (by decide)).2.1⟩

/-! ### Image defaults (C9) -/

/-- C9 counterexample: with both `width` and `height` given (and `scale`
absent) the code sets `fixedsize` to `True` although not *exactly one*
dimension was given; and with `width = 0` given as the only dimension the
derived `scale` is `"false"`, not `"true"` (Python truthiness treats a
zero dimension as absent). -/
theorem C9_counterexample :
    (Image.post_init 1 { src := "a.png", width := some 100, height := some 50 }).fixedsize
        = some true
    ∧ ¬ ((some (100 : Int) ≠ none ∧ some (50 : Int) = (none : Option Int)) ∨
         (some (100 : Int) = none ∧ some (50 : Int) ≠ (none : Option Int)))
    ∧ (Image.post_init 1 { src := "a.png", width := some 0 }).scale = "false"
    ∧ (some (0 : Int) ≠ (none : Option Int) ∧ (none : Option Int) = none) := by
  refine ⟨rfl, by decide, rfl, by decide⟩

/-- C9 (amended): when `fixedsize` is not supplied it is set to `True`
iff at least one dimension is given and nonzero and `scale` was not
given; `scale`, when not given, defaults to `"false"` (no nonzero
dimension), `"both"` (both nonzero), or `"true"` (exactly one nonzero). -/
theorem C9_image_defaults (r : ℚ) (cfg : ImageConfig) (hf : cfg.fixedsize = none) :
    ((Image.post_init r cfg).fixedsize = some true ↔
      (truthyInt cfg.width ∨ truthyInt cfg.height) ∧ cfg.scale = none)
    ∧ (cfg.scale = none →
        (Image.post_init r cfg).scale =
          if ¬ truthyInt cfg.width ∧ ¬ truthyInt cfg.height then "false"
          else if truthyInt cfg.width ∧ truthyInt cfg.height then "both"
          else "true") := by
  constructor
  · by_cases hw : truthyInt cfg.width <;> by_cases hh : truthyInt cfg.height <;>
      by_cases hs : cfg.scale = none <;>
        simp [Image.post_init, hf, hw, hh, hs]
  · intro hs
    by_cases hw : truthyInt cfg.width <;> by_cases hh : truthyInt cfg.height <;>
      simp [Image.post_init, hf, hw, hh, hs]

/-- Witness for C9 at a concrete one-dimension input. -/
theorem C9_image_defaults_witness :
    (Image.post_init 1 { src := "a.png", width := some 100 }).fixedsize = some true
    ∧ (Image.post_init 1 { src := "a.png", width := some 100 }).scale = "true" :=
  ⟨((C9_image_defaults 1 { src := "a.png", width := some 100 } rfl).1).mpr (by decide),
   by
    rw [(C9_image_defaults 1 { src := "a.png", width := some 100 } rfl).2 rfl]
    decide⟩

/-! ### Cable.connect (C6) -/

lemma connectLoop_eq (fn tn : Option String) (pairs : List (Option Int × Option Int)) :
    ∀ (ws : List Wire) (conns : List Connection),
    connectLoop fn tn pairs ws conns
      = (conns ++ (pairs.zip ws).map (mkConn fn tn),
         if pairs.length ≤ ws.length then none else some "tuple index out of range") := by
  induction pairs with
  | nil => intro ws conns; simp [connectLoop]
  | cons p ps ih =>
    intro ws conns
    obtain ⟨fp, tp⟩ := p
    cases ws with
    | nil => simp [connectLoop]
    | cons w ws' =>
      rw [connectLoop, ih]
      simp [mkConn, List.append_assoc]

/-- C6 counterexample: with `from_pin = (1, 2)`, `to_pin = (3, 4)` (equal
lengths) and a single `via_wire = 5`, the claim as stated requires two
Connections appended; the code appends only the first and then raises
`IndexError` when reading `via_wire[1]`. -/
theorem C6_counterexample :
    Cable.connect [] none (PinArg.many [1, 2]) (WireArg.one (Sum.inl 5)) none (PinArg.many [3, 4])
      = ([{ from_name := none, from_pin := some 1, via_port := Sum.inl 5,
            to_name := none, to_pin := some 3 }], some "tuple index out of range") := by
  rfl

/-- C6 (amended): coercing each argument to a tuple, a from/to length
mismatch fails with nothing appended; otherwise, when the via-wire tuple
is at least as long as the pin tuples, exactly one Connection per paired
element is appended to the existing list in index order (so successive
calls append in issue order); when the via-wire tuple is shorter, the
call raises an index error after appending one Connection per via-wire
element. -/
theorem C6_connect_appends (conns : List Connection) (fn tn : Option String)
    (fp : PinArg) (vw : WireArg) (tp : PinArg) :
    (¬ (int2tuplePins fp).length = (int2tuplePins tp).length →
      Cable.connect conns fn fp vw tn tp
        = (conns, some "from_pin must have the same number of elements as to_pin"))
    ∧ ((int2tuplePins fp).length = (int2tuplePins tp).length →
       (int2tuplePins fp).length ≤ (int2tupleWires vw).length →
      Cable.connect conns fn fp vw tn tp
        = (conns ++ (((int2tuplePins fp).zip (int2tuplePins tp)).zip
            (int2tupleWires vw)).map (mkConn fn tn), none))
    ∧ ((int2tuplePins fp).length = (int2tuplePins tp).length →
       (int2tupleWires vw).length < (int2tuplePins fp).length →
      Cable.connect conns fn fp vw tn tp
        = (conns ++ (((int2tuplePins fp).zip (int2tuplePins tp)).zip
            (int2tupleWires vw)).map (mkConn fn tn), some "tuple index out of range")) := by
  refine ⟨?_, ?_, ?_⟩
  · intro h
    simp [Cable.connect, h]
  · intro heq hle
    simp only [Cable.connect, heq]
    rw [if_neg (by simp), connectLoop_eq]
    rw [if_pos]
    rw [List.length_zip, ← heq]
    simpa using hle
  · intro heq hlt
    simp only [Cable.connect, heq]
    rw [if_neg (by simp), connectLoop_eq]
    rw [if_neg]
    rw [List.length_zip, ← heq]
    simp
    omega

/-- Witness for C6: a two-pair call with matching via wires appends the
two Connections in order. -/
theorem C6_connect_appends_witness :
    Cable.connect [] none (PinArg.many [1, 2]) (WireArg.many [Sum.inl 5, Sum.inl 6]) none
        (PinArg.many [3, 4])
      = ([{ from_name := none, from_pin := some 1, via_port := Sum.inl 5,
            to_name := none, to_pin := some 3 },
          { from_name := none, from_pin := some 2, via_port := Sum.inl 6,
            to_name := none, to_pin := some 4 }], none) := by
  rw [(C6_connect_appends [] none none (PinArg.many [1, 2]) (WireArg.many [Sum.inl 5, Sum.inl 6])
      (PinArg.many [3, 4])).2.1 (by decide) (by decide)]
  rfl

/-! ### Quantity multiplier resolver (C3) -/

lemma visibleCount_eq_length (d : List (Pin × Bool)) (h : ∀ e ∈ d, e.2 = true) :
    visibleCount d = d.length := by
  induction d with
  | nil => rfl
  | cons e es ih =>
    have he : e.2 = true := h e (List.mem_cons_self e es)
    have ht : ∀ x ∈ es, x.2 = true := fun x hx => h x (List.mem_cons_of_mem e hx)
    have ih2 := ih ht
    unfold visibleCount at ih2 ⊢
    rw [List.map_cons, List.sum_cons, ih2, he, if_pos rfl, List.length_cons]
    push_cast
    ring

/-- C3: the quantity multiplier resolver returns, for a Connector whose
visible-pin dictionary holds only `True` values (the invariant maintained
by `activate_pin`), `pincount`, the number of visible pins, and
`max 0 (pincount - visible)`; for a Cable, `wirecount`, the number of
recorded connections, `length`, and `length * wirecount`; `1` for an
absent or empty key; and an invalid-parameter error for any other
non-empty key. -/
theorem C3_qty_multiplier (cst : ConnectorState) (bst : CableState)
    (hvis : ∀ e ∈ cst.visible_pins, e.2 = true) :
    Connector.get_qty_multiplier cst (some "pincount") = .ok cst.pincount
    ∧ Connector.get_qty_multiplier cst (some "populated")
        = .ok (cst.visible_pins.length : Int)
    ∧ Connector.get_qty_multiplier cst (some "unpopulated")
        = .ok (max 0 (cst.pincount - (cst.visible_pins.length : Int)))
    ∧ Connector.get_qty_multiplier cst none = .ok 1
    ∧ Connector.get_qty_multiplier cst (some "") = .ok 1
    ∧ (∀ k : String, k ≠ "" → k ∉ ["pincount", "populated", "unpopulated"] →
        Connector.get_qty_multiplier cst (some k)
          = .error ("invalid qty multiplier parameter for connector " ++ k))
    ∧ Cable.get_qty_multiplier bst (some "wirecount") = .ok (bst.wirecount : ℚ)
    ∧ Cable.get_qty_multiplier bst (some "terminations") = .ok (bst.connections.length : ℚ)
    ∧ Cable.get_qty_multiplier bst (some "length") = .ok bst.length
    ∧ Cable.get_qty_multiplier bst (some "total_length")
        = .ok (bst.length * (bst.wirecount : ℚ))
    ∧ Cable.get_qty_multiplier bst none = .ok 1
    ∧ Cable.get_qty_multiplier bst (some "") = .ok 1
    ∧ (∀ k : String, k ≠ "" → k ∉ ["wirecount", "terminations", "length", "total_length"] →
        Cable.get_qty_multiplier bst (some k)
          = .error ("invalid qty multiplier parameter for cable " ++ k)) := by
  have hcount := visibleCount_eq_length cst.visible_pins hvis
  refine ⟨?_, ?_, ?_, ?_, ?_, ?_, ?_, ?_, ?_, ?_, ?_, ?_, ?_⟩
  · simp [Connector.get_qty_multiplier, truthyStr]
  · simp [Connector.get_qty_multiplier, truthyStr, hcount]
  · simp [Connector.get_qty_multiplier, truthyStr, hcount]
  · simp [Connector.get_qty_multiplier, truthyStr]
  · simp [Connector.get_qty_multiplier, truthyStr]
  · intro k hk hmem
    simp only [List.mem_cons, List.mem_singleton, not_or] at hmem
    obtain ⟨h1, h2, h3, _⟩ := hmem
    simp [Connector.get_qty_multiplier, truthyStr, hk, h1, h2, h3]
  · simp [Cable.get_qty_multiplier, truthyStr]
  · simp [Cable.get_qty_multiplier, truthyStr]
  · simp [Cable.get_qty_multiplier, truthyStr]
  · simp [Cable.get_qty_multiplier, truthyStr]
  · simp [Cable.get_qty_multiplier, truthyStr]
  · simp [Cable.get_qty_multiplier, truthyStr]
  · intro k hk hmem
    simp only [List.mem_cons, List.mem_singleton, not_or] at hmem
    obtain ⟨h1, h2, h3, h4, _⟩ := hmem
    simp [Cable.get_qty_multiplier, truthyStr, hk, h1, h2, h3, h4]

/-- Witness for C3: the spec's example, a Connector with `pincount = 8`
and 5 visible pins yields populated 5, unpopulated 3, pincount 8. -/
theorem C3_qty_multiplier_witness :
    Connector.get_qty_multiplier
        { name := "X1", style := none, pincount := 8, pins := [], pinlabels := [],
          pincolors := [], show_name := true, show_pincount := true,
          hide_disconnected_pins := false, loops := [], ports_left := false,
          ports_right := false,
          visible_pins := [(Sum.inl 1, true), (Sum.inl 2, true), (Sum.inl 3, true),
            (Sum.inl 4, true), (Sum.inl 5, true)] } (some "populated") = .ok 5
    ∧ Connector.get_qty_multiplier
        { name := "X1", style := none, pincount := 8, pins := [], pinlabels := [],
          pincolors := [], show_name := true, show_pincount := true,
          hide_disconnected_pins := false, loops := [], ports_left := false,
          ports_right := false,
          visible_pins := [(Sum.inl 1, true), (Sum.inl 2, true), (Sum.inl 3, true),
            (Sum.inl 4, true), (Sum.inl 5, true)] } (some "unpopulated") = .ok 3
    ∧ Connector.get_qty_multiplier
        { name := "X1", style := none, pincount := 8, pins := [], pinlabels := [],
          pincolors := [], show_name := true, show_pincount := true,
          hide_disconnected_pins := false, loops := [], ports_left := false,
          ports_right := false,
          visible_pins := [(Sum.inl 1, true), (Sum.inl 2, true), (Sum.inl 3, true),
            (Sum.inl 4, true), (Sum.inl 5, true)] } (some "pincount") = .ok 8 := by
  have h := C3_qty_multiplier
    { name := "X1", style := none, pincount := 8, pins := [], pinlabels := [],
      pincolors := [], show_name := true, show_pincount := true,
      hide_disconnected_pins := false, loops := [], ports_left := false,
      ports_right := false,
      visible_pins := [(Sum.inl 1, true), (Sum.inl 2, true), (Sum.inl 3, true),
        (Sum.inl 4, true), (Sum.inl 5, true)] }
    { name := "W1", category := none, gauge := none, gauge_unit := none, length := 0,
      length_unit := some "m", wirecount := 1, shield := Sum.inl false, colors := [""],
      wirelabels := [], show_name := true, show_wirecount := true, show_wirenumbers := true,
      connections := [] }
    (by simp)
  refine ⟨?_, ?_, ?_⟩
  · rw [h.2.1]
    rfl
  · rw [h.2.2.1]
    rfl
  · rw [h.1]

/-! ### Connector construction (C1) -/

lemma activate_pin_pincount (st : ConnectorState) (p : Pin) (side : Option Side) :
    (Connector.activate_pin st p side).pincount = st.pincount := by
  unfold Connector.activate_pin
  split_ifs <;> rfl

lemma processLoopPins_pincount (pins : List Pin) :
    ∀ (ps : List Pin) (st st' : ConnectorState),
      Connector.processLoopPins pins ps st = .ok st' → st'.pincount = st.pincount := by
  intro ps
  induction ps with
  | nil =>
    intro st st' h
    simp [Connector.processLoopPins] at h
    rw [← h]
  | cons p ps ih =>
    intro st st' h
    rw [Connector.processLoopPins] at h
    by_cases hc : pins.contains p
    · rw [if_pos hc] at h
      rw [ih _ st' h, activate_pin_pincount]
    · rw [if_neg hc] at h
      simp at h

lemma processLoops_pincount (pins : List Pin) :
    ∀ (ls : List (List Pin)) (st st' : ConnectorState),
      Connector.processLoops pins ls st = .ok st' → st'.pincount = st.pincount := by
  intro ls
  induction ls with
  | nil =>
    intro st st' h
    simp [Connector.processLoops] at h
    rw [← h]
  | cons l ls ih =>
    intro st st' h
    rw [Connector.processLoops] at h
    by_cases hl : l.length ≠ 2
    · rw [if_pos hl] at h
      simp at h
    · rw [if_neg hl] at h
      cases hmid : Connector.processLoopPins pins l st with
      | error e => rw [hmid] at h; simp at h
      | ok stm =>
        rw [hmid] at h
        rw [ih stm st' h, processLoopPins_pincount pins l st stm hmid]

/-- C1: for a Connector whose pincount is not supplied and whose style is
not "simple", successful construction yields
`pincount = max(len(pins), len(pinlabels), len(pincolors))`, and when
pins, pinlabels and pincolors are all empty as well, construction fails
with the dedicated error. -/
theorem C1_pincount_derivation (cfg : ConnectorConfig)
    (hpc : cfg.pincount = none) (hst : cfg.style ≠ some "simple") :
    (∀ st, Connector.post_init cfg = .ok st →
      st.pincount
        = ((max cfg.pins.length (max cfg.pinlabels.length cfg.pincolors.length) : Nat) : Int))
    ∧ (cfg.pins = [] → cfg.pinlabels = [] → cfg.pincolors = [] →
      Connector.post_init cfg
        = .error "You need to specify at least one, pincount, pins, pinlabels, or pincolors") := by
  have ht : truthyInt cfg.pincount = false := by rw [hpc]; rfl
  have hchk : ∀ pc pins st, Connector.checkPins cfg pc pins = .ok st → st.pincount = pc := by
    intro pc pins st h
    unfold Connector.checkPins at h
    split at h
    · simp at h
    · exact processLoops_pincount _ cfg.loops _ st h
  have hfin : ∀ pc st, Connector.finishInit cfg pc = .ok st → st.pincount = pc := by
    intro pc st h
    exact hchk pc _ st h
  constructor
  · intro st h
    unfold Connector.post_init at h
    cases hres : Connector.resolvePincount cfg with
    | error e => rw [hres] at h; simp at h
    | ok pc =>
      rw [hres] at h
      unfold Connector.resolvePincount at hres
      rw [if_neg hst, ht] at hres
      simp only [Bool.false_eq_true, if_false] at hres
      by_cases hm :
          ((max cfg.pins.length (max cfg.pinlabels.length cfg.pincolors.length) : Nat) : Int) = 0
      · rw [if_pos hm] at hres
        simp at hres
      · rw [if_neg hm] at hres
        simp only [Except.ok.injEq] at hres
        rw [hfin pc st h, ← hres]
  · intro h1 h2 h3
    unfold Connector.post_init Connector.resolvePincount
    rw [if_neg hst, ht]
    simp [h1, h2, h3]

/-- Witness for C1: three pinlabels and nothing else give pincount 3; an
empty configuration fails. -/
theorem C1_pincount_derivation_witness :
    (Connector.post_init { name := "X1", pinlabels := [Sum.inr "A", Sum.inr "B", Sum.inr "C"] }
      ).toOption.map ConnectorState.pincount = some 3
    ∧ Connector.post_init { name := "X2" }
        = .error "You need to specify at least one, pincount, pins, pinlabels, or pincolors" := by
  constructor
  · cases heval : Connector.post_init
        { name := "X1", pinlabels := [Sum.inr "A", Sum.inr "B", Sum.inr "C"] } with
    | error e =>
      have hok : (Connector.post_init
          { name := "X1", pinlabels := [Sum.inr "A", Sum.inr "B", Sum.inr "C"] }).isOk
            = true := by decide
      rw [heval] at hok
      simp [Except.isOk, Except.toBool] at hok
    | ok st =>
      have hp := (C1_pincount_derivation
        { name := "X1", pinlabels := [Sum.inr "A", Sum.inr "B", Sum.inr "C"] } rfl
        (by simp)).1 st heval
      simp [Except.toOption]
      simpa using hp
  · exact (C1_pincount_derivation { name := "X2" } rfl (by simp)).2 rfl rfl rfl

/-! ### activate_pin state machine (C10) -/

lemma finishInit_noloops (cfg : ConnectorConfig) (pc : Int) (st0 : ConnectorState)
    (hloops : cfg.loops = []) (h : Connector.finishInit cfg pc = .ok st0) :
    st0.visible_pins = [] ∧ st0.ports_left = false ∧ st0.ports_right = false := by
  unfold Connector.finishInit Connector.checkPins at h
  rw [hloops] at h
  simp only [Connector.processLoops] at h
  split at h <;> split at h <;>
    first
      | (rw [Except.ok.injEq] at h
         rw [← h]
         exact ⟨rfl, rfl, rfl⟩)
      | simp at h

lemma activate_pin_visible (st : ConnectorState) (p : Pin) (side : Option Side) :
    (Connector.activate_pin st p side).visible_pins = dictSet st.visible_pins p true := by
  unfold Connector.activate_pin
  split_ifs <;> rfl

lemma dictSet_values_true (d : List (Pin × Bool)) (p : Pin) (h : ∀ e ∈ d, e.2 = true) :
    ∀ e ∈ dictSet d p true, e.2 = true := by
  intro e he
  unfold dictSet at he
  split_ifs at he
  · rw [List.mem_map] at he
    obtain ⟨x, hx, hxe⟩ := he
    by_cases hxp : x.1 = p
    · rw [if_pos hxp] at hxe
      rw [← hxe]
    · rw [if_neg hxp] at hxe
      rw [← hxe]
      exact h x hx
  · rw [List.mem_append] at he
    rcases he with he | he
    · exact h e he
    · rw [List.mem_singleton] at he
      rw [he]

lemma dictSet_mem_true (d : List (Pin × Bool)) (p q : Pin) (h : (q, true) ∈ d) :
    (q, true) ∈ dictSet d p true := by
  unfold dictSet
  split_ifs
  · refine List.mem_map.mpr ⟨(q, true), h, ?_⟩
    by_cases hq : q = p <;> simp [hq]
  · exact List.mem_append_left _ h

lemma map_dictSet_noop (d : List (Pin × Bool)) (p : Pin) (h : ∀ e ∈ d, ¬ e.1 = p) :
    d.map (fun e => if e.1 = p then (e.1, true) else e) = d := by
  induction d with
  | nil => rfl
  | cons e es ih =>
    rw [List.map_cons, if_neg (h e (List.mem_cons_self e es)),
      ih (fun x hx => h x (List.mem_cons_of_mem e hx))]

lemma dictSet_idem (d : List (Pin × Bool)) (p : Pin) :
    dictSet (dictSet d p true) p true = dictSet d p true := by
  have hproj : ∀ e : Pin × Bool, ((if e.1 = p then (e.1, true) else e) : Pin × Bool).1 = e.1 := by
    intro e
    by_cases h : e.1 = p <;> simp [h]
  unfold dictSet
  by_cases hany : d.any (fun e => e.1 = p)
  · rw [if_pos hany]
    have hany2 : (d.map (fun e => if e.1 = p then (e.1, true) else e)).any
        (fun e => e.1 = p) = true := by
      rw [List.any_map]
      simpa [Function.comp, hproj] using hany
    rw [if_pos hany2, List.map_map]
    have hff : ((fun e : Pin × Bool => if e.1 = p then (e.1, true) else e) ∘
        (fun e : Pin × Bool => if e.1 = p then (e.1, true) else e))
          = fun e : Pin × Bool => if e.1 = p then (e.1, true) else e := by
      funext e
      by_cases h : e.1 = p <;> simp [Function.comp, h]
    rw [hff]
  · rw [if_neg hany]
    have hall : ∀ e ∈ d, ¬ e.1 = p := by
      intro e he
      intro hep
      exact hany (List.any_eq_true.mpr ⟨e, he, by simp [hep]⟩)
    have hany2 : (d ++ [(p, true)]).any (fun e => e.1 = p) = true := by simp
    rw [if_pos hany2, List.map_append, map_dictSet_noop d p hall]
    simp

lemma activate_pin_idem (st : ConnectorState) (p : Pin) (side : Option Side) :
    Connector.activate_pin (Connector.activate_pin st p side) p side
      = Connector.activate_pin st p side := by
  unfold Connector.activate_pin
  rcases side with _ | s
  · simp [dictSet_idem]
  · cases s
    · simp [dictSet_idem]
    · simp [dictSet_idem]

/-- C10: a freshly constructed Connector without loops has no visible
pins and both port flags false; `activate_pin` keeps every stored
visibility value `True`, never removes a visible pin, never lowers a port
flag, and is idempotent (activating the same pin and side twice equals
once). -/
theorem C10_activate_pin_state (cfg : ConnectorConfig) (st st0 : ConnectorState) (p : Pin)
    (side : Option Side) :
    (Connector.post_init cfg = .ok st0 → cfg.loops = [] →
      st0.visible_pins = [] ∧ st0.ports_left = false ∧ st0.ports_right = false)
    ∧ ((∀ e ∈ st.visible_pins, e.2 = true) →
        ∀ e ∈ (Connector.activate_pin st p side).visible_pins, e.2 = true)
    ∧ (∀ q, (q, true) ∈ st.visible_pins →
        (q, true) ∈ (Connector.activate_pin st p side).visible_pins)
    ∧ (st.ports_left = true → (Connector.activate_pin st p side).ports_left = true)
    ∧ (st.ports_right = true → (Connector.activate_pin st p side).ports_right = true)
    ∧ Connector.activate_pin (Connector.activate_pin st p side) p side
        = Connector.activate_pin st p side := by
  refine ⟨?_, ?_, ?_, ?_, ?_, activate_pin_idem st p side⟩
  · intro hok hloops
    unfold Connector.post_init at hok
    cases hres : Connector.resolvePincount cfg with
    | error e => rw [hres] at hok; simp at hok
    | ok pc =>
      rw [hres] at hok
      exact finishInit_noloops cfg pc st0 hloops hok
  · intro h e he
    rw [activate_pin_visible] at he
    exact dictSet_values_true st.visible_pins p h e he
  · intro q hq
    rw [activate_pin_visible]
    exact dictSet_mem_true st.visible_pins p q hq
  · intro h
    unfold Connector.activate_pin
    split_ifs <;> simp [h]
  · intro h
    unfold Connector.activate_pin
    split_ifs <;> simp [h]

/-- Witness for C10: idempotence and pin retention at a concrete state. -/
theorem C10_activate_pin_state_witness :
    Connector.activate_pin
        (Connector.activate_pin
          { name := "X1", style := none, pincount := 2, pins := [Sum.inl 1, Sum.inl 2],
            pinlabels := [], pincolors := [], show_name := true, show_pincount := true,
            hide_disconnected_pins := false, loops := [], ports_left := false,
            ports_right := false, visible_pins := [(Sum.inl 1, true)] }
          (Sum.inl 2) (some Side.LEFT))
        (Sum.inl 2) (some Side.LEFT)
      = Connector.activate_pin
          { name := "X1", style := none, pincount := 2, pins := [Sum.inl 1, Sum.inl 2],
            pinlabels := [], pincolors := [], show_name := true, show_pincount := true,
            hide_disconnected_pins := false, loops := [], ports_left := false,
            ports_right := false, visible_pins := [(Sum.inl 1, true)] }
          (Sum.inl 2) (some Side.LEFT)
    ∧ (Sum.inl 1, true) ∈ (Connector.activate_pin
        { name := "X1", style := none, pincount := 2, pins := [Sum.inl 1, Sum.inl 2],
          pinlabels := [], pincolors := [], show_name := true, show_pincount := true,
          hide_disconnected_pins := false, loops := [], ports_left := false,
          ports_right := false, visible_pins := [(Sum.inl 1, true)] }
        (Sum.inl 2) (some Side.LEFT)).visible_pins :=
  ⟨(C10_activate_pin_state { name := "X1" }
      { name := "X1", style := none, pincount := 2, pins := [Sum.inl 1, Sum.inl 2],
        pinlabels := [], pincolors := [], show_name := true, show_pincount := true,
        hide_disconnected_pins := false, loops := [], ports_left := false,
        ports_right := false, visible_pins := [(Sum.inl 1, true)] }
      { name := "X1", style := none, pincount := 2, pins := [Sum.inl 1, Sum.inl 2],
        pinlabels := [], pincolors := [], show_name := true, show_pincount := true,
        hide_disconnected_pins := false, loops := [], ports_left := false,
        ports_right := false, visible_pins := [(Sum.inl 1, true)] }
      (Sum.inl 2) (some Side.LEFT)).2.2.2.2.2,
   (C10_activate_pin_state { name := "X1" }
      { name := "X1", style := none, pincount := 2, pins := [Sum.inl 1, Sum.inl 2],
        pinlabels := [], pincolors := [], show_name := true, show_pincount := true,
        hide_disconnected_pins := false, loops := [], ports_left := false,
        ports_right := false, visible_pins := [(Sum.inl 1, true)] }
      { name := "X1", style := none, pincount := 2, pins := [Sum.inl 1, Sum.inl 2],
        pinlabels := [], pincolors := [], show_name := true, show_pincount := true,
        hide_disconnected_pins := false, loops := [], ports_left := false,
        ports_right := false, visible_pins := [(Sum.inl 1, true)] }
      (Sum.inl 2) (some Side.LEFT)).2.2.1 (Sum.inl 1) (by simp)⟩

/-! ### Cable color resolution (C2, C7, C8) -/

lemma flatten_replicate_length (m : Nat) (l : List String) :
    (List.flatten (List.replicate m l)).length = m * l.length := by
  induction m with
  | zero => simp
  | succ k ih =>
    simp [List.replicate_succ, ih]
    ring

lemma flatten_replicate_getElem (m i : Nat) (l : List String) (hl : 0 < l.length)
    (hi : i < m * l.length) :
    (List.flatten (List.replicate m l))[i]? = l[i % l.length]? := by
  induction m generalizing i with
  | zero => omega
  | succ k ih =>
    rw [List.replicate_succ, List.flatten_cons]
    by_cases h : i < l.length
    · rw [List.getElem?_append, if_pos h, Nat.mod_eq_of_lt h]
    · have hle : l.length ≤ i := Nat.le_of_not_lt h
      rw [List.getElem?_append, if_neg h]
      have hmod : (i - l.length) % l.length = i % l.length := by
        conv_rhs => rw [← Nat.sub_add_cancel hle]
        rw [Nat.add_mod_right]
      rw [← hmod]
      apply ih
      have hmul : (k + 1) * l.length = k * l.length + l.length := by ring
      omega

lemma lt_div_succ_mul (n len : Nat) (hl : 0 < len) : n < (n / len + 1) * len := by
  have h1 := Nat.div_add_mod n len
  have h2 := Nat.mod_lt n hl
  calc n = len * (n / len) + n % len := h1.symm
    _ < len * (n / len) + len := by omega
    _ = (n / len + 1) * len := by ring

lemma resolveColors_falsy (cc : String → Option (List String)) (wc : Option Int)
    (colors : List String) (color_code : Option String) (hwc : truthyInt wc = false) :
    resolveColors cc wc colors color_code
      = if colors = [] then
          .error "Unknown number of wires. Must specify wirecount or colors (implicit length)"
        else .ok ((colors.length : Int), colors) := by
  unfold resolveColors
  rw [hwc]
  simp

lemma resolveColors_code_irrelevant (cc : String → Option (List String)) (wc : Option Int)
    (colors : List String) (ccode : Option String)
    (h : colors ≠ [] ∨ truthyInt wc = false) :
    resolveColors cc wc colors ccode = resolveColors cc wc colors none := by
  rcases h with h | h
  · unfold resolveColors
    by_cases ht : truthyInt wc = true <;> simp [ht, h]
  · unfold resolveColors
    rw [h]
    simp

lemma resolveColors_pos (cc : String → Option (List String)) (colors : List String)
    (color_code : Option String) (n : Int) (hn : 0 < n) (wc : Int) (cols : List String)
    (h : resolveColors cc (some n) colors color_code = .ok (wc, cols)) :
    wc = n
    ∧ 0 < (palettePick cc colors color_code n).length
    ∧ cols.length = n.toNat
    ∧ ∀ i, i < n.toNat →
        cols[i]? = (palettePick cc colors color_code n)[i %
          (palettePick cc colors color_code n).length]? := by
  have htr : truthyInt (some n) = true := by
    simp only [truthyInt, bne_iff_ne, ne_eq]
    omega
  unfold resolveColors at h
  rw [htr] at h
  rw [if_pos rfl] at h
  simp only [Option.getD_some] at h
  have tail : ∀ (base : List String),
      palettePick cc colors color_code n = base →
      (if (base.length : Int) < n then
        if base.length = 0 then
          (.error "integer division or modulo by zero" : Except String (Int × List String))
        else .ok (n, pySliceTo (List.flatten (List.replicate (n.toNat / base.length + 1) base)) n)
      else .ok (n, pySliceTo base n)) = .ok (wc, cols) →
      wc = n ∧ 0 < (palettePick cc colors color_code n).length ∧ cols.length = n.toNat
        ∧ ∀ i, i < n.toNat →
            cols[i]? = (palettePick cc colors color_code n)[i %
              (palettePick cc colors color_code n).length]? := by
    intro base hbase h2
    rw [hbase]
    by_cases hlen : (base.length : Int) < n
    · rw [if_pos hlen] at h2
      by_cases hz : base.length = 0
      · rw [if_pos hz] at h2
        simp at h2
      · rw [if_neg hz] at h2
        rw [Except.ok.injEq, Prod.mk.injEq] at h2
        obtain ⟨hwc, hcols⟩ := h2
        have hl0 : 0 < base.length := Nat.pos_of_ne_zero hz
        have hmul : n.toNat < (n.toNat / base.length + 1) * base.length :=
          lt_div_succ_mul n.toNat base.length hl0
        refine ⟨hwc.symm, hl0, ?_, ?_⟩
        · rw [← hcols]
          unfold pySliceTo
          rw [if_pos (le_of_lt hn), List.length_take, flatten_replicate_length]
          omega
        · intro i hi
          rw [← hcols]
          unfold pySliceTo
          rw [if_pos (le_of_lt hn), List.getElem?_take, if_pos hi,
            flatten_replicate_getElem _ _ _ hl0 (by omega)]
    · rw [if_neg hlen] at h2
      rw [Except.ok.injEq, Prod.mk.injEq] at h2
      obtain ⟨hwc, hcols⟩ := h2
      have hle : n.toNat ≤ base.length := by omega
      have hl0 : 0 < base.length := by omega
      refine ⟨hwc.symm, hl0, ?_, ?_⟩
      · rw [← hcols]
        unfold pySliceTo
        rw [if_pos (le_of_lt hn), List.length_take]
        omega
      · intro i hi
        rw [← hcols]
        unfold pySliceTo
        rw [if_pos (le_of_lt hn), List.getElem?_take, if_pos hi,
          Nat.mod_eq_of_lt (by omega)]
  by_cases hcol : colors = []
  · by_cases hccx : truthyStr color_code
    · cases hcc : cc (color_code.getD "") with
      | none =>
        rw [hcol] at h
        simp only [ne_eq, not_true_eq_false, if_false, hccx, if_true, hcc] at h
        simp at h
      | some pal =>
        apply tail pal
        · unfold palettePick
          rw [if_neg (by simp [hcol]), if_pos hccx, hcc]
          rfl
        · rw [hcol] at h
          simp only [ne_eq, not_true_eq_false, if_false, hccx, if_true, hcc] at h
          exact h
    · apply tail (List.replicate n.toNat "")
      · unfold palettePick
        rw [if_neg (by simp [hcol]), if_neg hccx]
      · rw [hcol] at h
        simp only [ne_eq, not_true_eq_false, if_false, hccx, Bool.false_eq_true] at h
        exact h
  · apply tail colors
    · unfold palettePick
      rw [if_pos hcol]
    · simp only [ne_eq, hcol, not_false_eq_true, if_true] at h
      exact h

lemma post_init_ok_parts (cc : String → Option (List String)) (cfg : CableConfig)
    (st : CableState) (h : Cable.post_init cc cfg = .ok st) :
    parseGauge cfg.name cfg.gauge cfg.gauge_unit = .ok (st.gauge, st.gauge_unit)
    ∧ parseLength cfg.name cfg.length cfg.length_unit = .ok (st.length, st.length_unit)
    ∧ resolveColors cc cfg.wirecount cfg.colors cfg.color_code
        = .ok (st.wirecount, st.colors) := by
  unfold Cable.post_init at h
  cases hg : parseGauge cfg.name cfg.gauge cfg.gauge_unit with
  | error e => simp [hg] at h
  | ok p =>
    obtain ⟨g, gu⟩ := p
    simp only [hg] at h
    cases hl : parseLength cfg.name cfg.length cfg.length_unit with
    | error e => simp [hl] at h
    | ok q =>
      obtain ⟨L, lu⟩ := q
      simp only [hl] at h
      cases hc : resolveColors cc cfg.wirecount cfg.colors cfg.color_code with
      | error e => simp [hc] at h
      | ok r =>
        obtain ⟨wc, cols⟩ := r
        simp only [hc] at h
        cases hs : checkShieldLabel cfg.wirelabels cfg.shield with
        | error e => simp [hs] at h
        | ok u =>
          simp only [hs] at h
          cases hi : checkIdFields cfg.category wc
              [cfg.manufacturer, cfg.mpn, cfg.supplier, cfg.spn, cfg.pn] with
          | error e => simp [hi] at h
          | ok u2 =>
            simp only [hi] at h
            rw [Except.ok.injEq] at h
            rw [← h]
            exact ⟨rfl, rfl, rfl⟩

lemma post_init_error_of_colors (cc : String → Option (List String)) (cfg : CableConfig)
    (e0 : String)
    (hc : resolveColors cc cfg.wirecount cfg.colors cfg.color_code = .error e0) :
    ∃ e, Cable.post_init cc cfg = .error e := by
  unfold Cable.post_init
  cases hg : parseGauge cfg.name cfg.gauge cfg.gauge_unit with
  | error e => exact ⟨e, rfl⟩
  | ok p =>
    obtain ⟨g, gu⟩ := p
    cases hl : parseLength cfg.name cfg.length cfg.length_unit with
    | error e => exact ⟨e, rfl⟩
    | ok q =>
      obtain ⟨L, lu⟩ := q
      refine ⟨e0, ?_⟩
      rw [hc]

/-- C2 counterexample: `wirecount` explicitly supplied as `0` (with no
colors) is treated as omitted by Python truthiness, so construction
fails instead of producing an empty colors sequence of length 0. -/
theorem C2_counterexample :
    Cable.post_init (fun _ => none) { name := "W1", wirecount := some 0 }
      = .error "Unknown number of wires. Must specify wirecount or colors (implicit length)" := by
  rfl

/-- C2 (amended): for an explicit positive `wirecount`, the constructed
colors are the cyclic repetition of the chosen palette (explicit colors
if nonempty, else the named color-code table, else empty-string dummies)
truncated to exactly `wirecount`; a zero or omitted `wirecount` is
derived as `len(colors)` with the colors kept as given; omitted (or
zero) `wirecount` together with no colors fails construction. -/
theorem C2_colors_cyclic (cc : String → Option (List String)) (cfg : CableConfig) :
    (∀ (n : Int) (st : CableState), cfg.wirecount = some n → 0 < n →
      Cable.post_init cc cfg = .ok st →
      st.wirecount = n ∧ st.colors.length = n.toNat ∧
        ∀ i, i < n.toNat →
          st.colors[i]? = (palettePick cc cfg.colors cfg.color_code n)[i %
            (palettePick cc cfg.colors cfg.color_code n).length]?)
    ∧ (∀ st, cfg.wirecount = none ∨ cfg.wirecount = some 0 →
        Cable.post_init cc cfg = .ok st →
        st.wirecount = (cfg.colors.length : Int) ∧ st.colors = cfg.colors)
    ∧ (cfg.wirecount = none ∨ cfg.wirecount = some 0 → cfg.colors = [] →
        ∃ e, Cable.post_init cc cfg = .error e) := by
  have hfalsy : cfg.wirecount = none ∨ cfg.wirecount = some 0 →
      truthyInt cfg.wirecount = false := by
    rintro (h | h) <;> rw [h] <;> rfl
  refine ⟨?_, ?_, ?_⟩
  · intro n st hwc hn hok
    have hc := (post_init_ok_parts cc cfg st hok).2.2
    rw [hwc] at hc
    have hspec := resolveColors_pos cc cfg.colors cfg.color_code n hn st.wirecount st.colors hc
    exact ⟨hspec.1, hspec.2.2.1, hspec.2.2.2⟩
  · intro st hwc hok
    have hc := (post_init_ok_parts cc cfg st hok).2.2
    rw [resolveColors_falsy cc cfg.wirecount cfg.colors cfg.color_code (hfalsy hwc)] at hc
    by_cases hcol : cfg.colors = []
    · rw [if_pos hcol] at hc
      simp at hc
    · rw [if_neg hcol] at hc
      rw [Except.ok.injEq, Prod.mk.injEq] at hc
      exact ⟨hc.1.symm, hc.2.symm⟩
  · intro hwc hcol
    apply post_init_error_of_colors cc cfg
      "Unknown number of wires. Must specify wirecount or colors (implicit length)"
    rw [resolveColors_falsy cc cfg.wirecount cfg.colors cfg.color_code (hfalsy hwc),
      if_pos hcol]

/-- Witness for C2: the spec's example palette `["RD","BK"]` with
`wirecount = 5` yields `["RD","BK","RD","BK","RD"]`; and an explicit
`wirecount = 0` with colors `["RD"]` is treated as omitted, deriving
`wirecount = 1` and keeping the colors. -/
theorem C2_colors_cyclic_witness :
    (Cable.post_init (fun _ => none)
        { name := "W1", wirecount := some 5, colors := ["RD", "BK"] }).toOption.map
        (fun st => (st.wirecount, st.colors.length)) = some (5, 5)
    ∧ (Cable.post_init (fun _ => none)
        { name := "W1", wirecount := some 5, colors := ["RD", "BK"] }).toOption.map
        CableState.colors = some ["RD", "BK", "RD", "BK", "RD"]
    ∧ (Cable.post_init (fun _ => none)
        { name := "W1", wirecount := some 0, colors := ["RD"] }).toOption.map
        (fun st => (st.wirecount, st.colors)) = some (1, ["RD"]) := by
  refine ⟨?_, rfl, ?_⟩
  · cases heval : Cable.post_init (fun _ => none)
        { name := "W1", wirecount := some 5, colors := ["RD", "BK"] } with
    | error e =>
      have hok : (Cable.post_init (fun _ => none)
          { name := "W1", wirecount := some 5, colors := ["RD", "BK"] }).isOk = true := by
        decide
      rw [heval] at hok
      simp [Except.isOk, Except.toBool] at hok
    | ok st =>
      have hparts := (C2_colors_cyclic (fun _ => none)
        { name := "W1", wirecount := some 5, colors := ["RD", "BK"] }).1 5 st rfl
        (by norm_num) heval
      simp [Except.toOption]
      refine ⟨hparts.1, ?_⟩
      rw [hparts.2.1]
      rfl
  · cases heval : Cable.post_init (fun _ => none)
        { name := "W1", wirecount := some 0, colors := ["RD"] } with
    | error e =>
      have hok : (Cable.post_init (fun _ => none)
          { name := "W1", wirecount := some 0, colors := ["RD"] }).isOk = true := by
        decide
      rw [heval] at hok
      simp [Except.isOk, Except.toBool] at hok
    | ok st =>
      have hparts := (C2_colors_cyclic (fun _ => none)
        { name := "W1", wirecount := some 0, colors := ["RD"] }).2.1 st (Or.inr rfl) heval
      simp [Except.toOption]
      exact ⟨hparts.1, hparts.2⟩

/-- C7 counterexample: gauge `"abc def"` is not of the form
`"<number> <unit>"`, yet construction succeeds with gauge text `"abc"`
and unit `"def"`: the split succeeds on any two space-separated tokens
and the number part is never validated. -/
theorem C7_counterexample :
    Cable.post_init (fun _ => none)
        { name := "W1", gauge := some (Sum.inr "abc def"), wirecount := some 1 }
      = .ok { name := "W1", category := none, gauge := some (Sum.inr "abc"),
              gauge_unit := some "def", length := 0, length_unit := some "m", wirecount := 1,
              shield := Sum.inl false, colors := [""], wirelabels := [], show_name := true,
              show_wirecount := true, show_wirenumbers := true, connections := [] } := by
  rfl

/-- C7 (amended): a bare-number gauge defaults the unit to `mm²`; a
gauge string splitting into exactly two space-separated tokens yields
the first token as gauge text (not validated as a number) and the second
as unit, with `AWG` uppercased and `mm2` turned into the `mm²` glyph; a
gauge string that does not split into exactly two tokens fails
construction with the gauge error. -/
theorem C7_gauge_parsing (cc : String → Option (List String)) (cfg : CableConfig)
    (name : String) (q : ℚ) (s : String) (gu : Option String) :
    (parseGauge name (some (Sum.inl q)) none = .ok (some (Sum.inl q), some "mm²"))
    ∧ (∀ g u, pySplit s ' ' = [g, u] →
        parseGauge name (some (Sum.inr s)) gu
          = .ok (some (Sum.inr g),
              some (if pyUpper u = "AWG" then pyUpper u else pyReplace u "mm2" "mm²")))
    ∧ ((pySplit s ' ').length ≠ 2 →
        parseGauge name (some (Sum.inr s)) gu
          = .error ("Cable " ++ name ++ " gauge=" ++ s ++
              " - Gauge must be a number, or number and unit separated by a space"))
    ∧ (cfg.gauge = some (Sum.inr s) → (pySplit s ' ').length ≠ 2 →
        Cable.post_init cc cfg
          = .error ("Cable " ++ cfg.name ++ " gauge=" ++ s ++
              " - Gauge must be a number, or number and unit separated by a space")) := by
  have key : ∀ (nm : String) (gunit : Option String), (pySplit s ' ').length ≠ 2 →
      parseGauge nm (some (Sum.inr s)) gunit
        = .error ("Cable " ++ nm ++ " gauge=" ++ s ++
            " - Gauge must be a number, or number and unit separated by a space") := by
    intro nm gunit hlen
    have hred : parseGauge nm (some (Sum.inr s)) gunit
        = (match pySplit s ' ' with
          | [g, u] =>
            .ok (some (Sum.inr g),
              some (if pyUpper u = "AWG" then pyUpper u else pyReplace u "mm2" "mm²"))
          | _ =>
            .error ("Cable " ++ nm ++ " gauge=" ++ s ++
              " - Gauge must be a number, or number and unit separated by a space")) := rfl
    rw [hred]
    rcases hsp : pySplit s ' ' with _ | ⟨g, _ | ⟨u, _ | ⟨v, rest⟩⟩⟩
    · rfl
    · rfl
    · rw [hsp] at hlen
      simp at hlen
    · rfl
  refine ⟨by simp [parseGauge], ?_, key name gu, ?_⟩
  · intro g u hsp
    have hred : parseGauge name (some (Sum.inr s)) gu
        = (match pySplit s ' ' with
          | [g, u] =>
            .ok (some (Sum.inr g),
              some (if pyUpper u = "AWG" then pyUpper u else pyReplace u "mm2" "mm²"))
          | _ =>
            .error ("Cable " ++ name ++ " gauge=" ++ s ++
              " - Gauge must be a number, or number and unit separated by a space")) := rfl
    rw [hred, hsp]
  · intro hg hlen
    unfold Cable.post_init
    rw [hg, key cfg.name cfg.gauge_unit hlen]

/-- Witness for C7: the spec's examples: bare `0.5` gives unit `mm²`,
`"20 AWG"` gives unit `"AWG"`, `"abc"` fails. -/
theorem C7_gauge_parsing_witness :
    parseGauge "W1" (some (Sum.inl (1 / 2))) none = .ok (some (Sum.inl (1 / 2)), some "mm²")
    ∧ parseGauge "W1" (some (Sum.inr "20 AWG")) none
        = .ok (some (Sum.inr "20"), some "AWG")
    ∧ parseGauge "W1" (some (Sum.inr "abc")) none
        = .error
            "Cable W1 gauge=abc - Gauge must be a number, or number and unit separated by a space" := by
  refine ⟨(C7_gauge_parsing (fun _ => none) { name := "W1" } "W1" (1 / 2) "abc" none).1, ?_, ?_⟩
  · rw [(C7_gauge_parsing (fun _ => none) { name := "W1" } "W1" (1 / 2) "20 AWG" none).2.1
      "20" "AWG" (by decide)]
    rfl
  · exact (C7_gauge_parsing (fun _ => none) { name := "W1" } "W1" (1 / 2) "abc" none).2.2.1
      (by decide)

/-- C8 counterexample: a Cable whose `color_code` names an unrecognized
table (here every name is unrecognized) still constructs successfully
when explicit colors are given, because the color code is never
consulted. -/
theorem C8_counterexample :
    Cable.post_init (fun _ => none)
        { name := "W1", wirecount := some 1, colors := ["RD"], color_code := some "BOGUS" }
      = .ok { name := "W1", category := none, gauge := none, gauge_unit := none, length := 0,
              length_unit := some "m", wirecount := 1, shield := Sum.inl false, colors := ["RD"],
              wirelabels := [], show_name := true, show_wirecount := true,
              show_wirenumbers := true, connections := [] } := by
  rfl

/-- C8 (amended): construction fails on an unrecognized color-code name
exactly when the code is consulted: with nonzero wirecount, no explicit
colors, and a nonempty color-code name not present in the table,
construction fails with the dedicated error; with explicit colors, or an
omitted or zero wirecount, the color code is never consulted and
construction is identical to the same configuration without a
color_code, so an unrecognized name does not by itself fail
construction. -/
theorem C8_unknown_color_code (cc : String → Option (List String)) (cfg : CableConfig) :
    (∀ (n : Int) (s : String), cfg.wirecount = some n → n ≠ 0 → cfg.colors = [] →
      cfg.color_code = some s → s ≠ "" → cc s = none →
      resolveColors cc cfg.wirecount cfg.colors cfg.color_code = .error "Unknown color code"
      ∧ ∃ e, Cable.post_init cc cfg = .error e)
    ∧ (cfg.colors ≠ [] ∨ truthyInt cfg.wirecount = false →
      Cable.post_init cc cfg = Cable.post_init cc { cfg with color_code := none }) := by
  constructor
  · intro n s hwc hn hcol hcc hs hun
    have hrc : resolveColors cc cfg.wirecount cfg.colors cfg.color_code
        = .error "Unknown color code" := by
      rw [hwc, hcol, hcc]
      unfold resolveColors
      have htr : truthyInt (some n) = true := by
        simp only [truthyInt, bne_iff_ne, ne_eq, decide_not]
        simpa using hn
      have hts : truthyStr (some s) = true := by
        simp only [truthyStr, bne_iff_ne, ne_eq, decide_not]
        simpa using hs
      rw [htr, if_pos rfl]
      simp [hts, hun]
    exact ⟨hrc, post_init_error_of_colors cc cfg _ hrc⟩
  · intro h
    unfold Cable.post_init
    rw [resolveColors_code_irrelevant cc cfg.wirecount cfg.colors cfg.color_code h]

/-- Witness for C8 at a concrete table with no known names: the failure
case, and the never-consulted case both with explicit colors and with a
zero wirecount. -/
theorem C8_unknown_color_code_witness :
    (resolveColors (fun _ => none) (some 1) [] (some "X") = .error "Unknown color code"
      ∧ Cable.post_init (fun _ => none)
          { name := "W1", wirecount := some 1, color_code := some "X" }
          = .error "Unknown color code")
    ∧ Cable.post_init (fun _ => none)
        { name := "W2", wirecount := some 2, colors := ["RD"], color_code := some "BOGUS" }
      = Cable.post_init (fun _ => none)
        { name := "W2", wirecount := some 2, colors := ["RD"], color_code := none }
    ∧ Cable.post_init (fun _ => none)
        { name := "W3", wirecount := some 0, colors := ["RD"], color_code := some "BOGUS" }
      = Cable.post_init (fun _ => none)
        { name := "W3", wirecount := some 0, colors := ["RD"], color_code := none } :=
  ⟨⟨((C8_unknown_color_code (fun _ => none)
        { name := "W1", wirecount := some 1, color_code := some "X" }).1 1 "X" rfl (by decide)
        rfl rfl (by decide) rfl).1,
    by rfl⟩,
   (C8_unknown_color_code (fun _ => none)
      { name := "W2", wirecount := some 2, colors := ["RD"], color_code := some "BOGUS" }).2
      (Or.inl (by decide)),
   (C8_unknown_color_code (fun _ => none)
      { name := "W3", wirecount := some 0, colors := ["RD"], color_code := some "BOGUS" }).2
      (Or.inr rfl)⟩

end WireViz
